import Mathlib

/-!
Verification of the schaakmat chess engine (src/schaakmat/board.py).

The board is a 64-cell string in Python; we model it as a `List Char`, with an
empty square held as the space character (Python's `get_piece` strips a space
cell to the empty string; we represent emptiness by `' '` and truthiness of a
stripped cell by `is_occupied`).  Square indices and move offsets are Python
integers, modeled as `Int`.  Python string slicing (which clamps and never
fails) is modeled exactly by `py_slice_to`/`py_slice_from`; direct indexing
`board[i]` (which wraps a negative index once and raises when out of range) is
modeled by `get_piece`, which returns `' '` on the raising branch.

Python sets of piece characters are modeled by their membership predicates
(`WHITES`, `BLACKS`, `KINGS`, ...); the engine only ever tests membership.
A team value (`WHITES` or `BLACKS` in Python, compared with `is`) is modeled
by a `Bool` that is `true` for white, as `active_team` produces it.

Generators are modeled as the lists of the values they yield, in yield order;
the unbounded `itertools.count` walk of `_accessible_moves` is modeled with a
fuel argument (`ray_fuel = 70`): from any origin the Python loop provably
breaks within at most 65 steps, because each step moves the destination by a
nonzero offset and the walk stops as soon as the destination leaves 0..63.
-/

namespace Schaakmat

structure CastlingRights where
  kingside : Bool
  queenside : Bool
deriving DecidableEq

structure Move where
  origin : Int
  destination : Int
deriving DecidableEq

structure Position where
  board : List Char
  whites_turn : Bool
  castling_white : CastlingRights
  castling_black : CastlingRights
  en_passant_target : Option Int
  half_move_clock : Int
  move_count : Int
deriving DecidableEq

def KING_WHITE : Char := '♔'

def QUEEN_WHITE : Char := '♕'

def ROOK_WHITE : Char := '♖'

def BISHOP_WHITE : Char := '♗'

def KNIGHT_WHITE : Char := '♘'

def PAWN_WHITE : Char := '♙'

def KING_BLACK : Char := '♚'

def QUEEN_BLACK : Char := '♛'

def ROOK_BLACK : Char := '♜'

def BISHOP_BLACK : Char := '♝'

def KNIGHT_BLACK : Char := '♞'

def PAWN_BLACK : Char := '♟'

/-- Membership predicate of the Python set `WHITES`. -/
def WHITES (c : Char) : Bool :=
  c == KING_WHITE || c == QUEEN_WHITE || c == ROOK_WHITE || c == BISHOP_WHITE
    || c == KNIGHT_WHITE || c == PAWN_WHITE

/-- Membership predicate of the Python set `BLACKS`. -/
def BLACKS (c : Char) : Bool :=
  c == KING_BLACK || c == QUEEN_BLACK || c == ROOK_BLACK || c == BISHOP_BLACK
    || c == KNIGHT_BLACK || c == PAWN_BLACK

def KINGS (c : Char) : Bool := c == KING_WHITE || c == KING_BLACK

def QUEENS (c : Char) : Bool := c == QUEEN_WHITE || c == QUEEN_BLACK

def ROOKS (c : Char) : Bool := c == ROOK_WHITE || c == ROOK_BLACK

def BISHOPS (c : Char) : Bool := c == BISHOP_WHITE || c == BISHOP_BLACK

def KNIGHTS (c : Char) : Bool := c == KNIGHT_WHITE || c == KNIGHT_BLACK

def PAWNS (c : Char) : Bool := c == PAWN_WHITE || c == PAWN_BLACK

def NORTH : Int := -8

def EAST : Int := 1

def SOUTH : Int := 8

def WEST : Int := -1

/-- The `DIRECTIONS_WHITE` dictionary lookup (the sets are iterated only for
membership-insensitive purposes, so a fixed list order is a faithful model). -/
def DIRECTIONS_WHITE (piece : Char) : List Int :=
  if piece == KING_WHITE then
    [NORTH, NORTH+EAST, EAST, EAST*2, SOUTH+EAST, SOUTH, SOUTH+WEST, WEST*2, NORTH+WEST]
  else if piece == QUEEN_WHITE then
    [NORTH, NORTH+EAST, EAST, SOUTH+EAST, SOUTH, SOUTH+WEST, WEST, NORTH+WEST]
  else if piece == ROOK_WHITE then [NORTH, EAST, SOUTH, WEST]
  else if piece == BISHOP_WHITE then [NORTH+EAST, SOUTH+EAST, SOUTH+WEST, NORTH+WEST]
  else if piece == KNIGHT_WHITE then
    [NORTH*2+EAST, NORTH+EAST*2, SOUTH+EAST*2, SOUTH*2+EAST, SOUTH*2+WEST, SOUTH+WEST*2,
     NORTH+WEST*2, NORTH*2+WEST]
  else if piece == PAWN_WHITE then [NORTH, NORTH*2, NORTH+EAST, NORTH+WEST]
  else []

/-- The `DIRECTIONS_BLACK` dictionary lookup. -/
def DIRECTIONS_BLACK (piece : Char) : List Int :=
  if piece == KING_BLACK then
    [NORTH, NORTH+EAST, EAST, EAST*2, SOUTH+EAST, SOUTH, SOUTH+WEST, WEST*2, NORTH+WEST]
  else if piece == QUEEN_BLACK then
    [NORTH, NORTH+EAST, EAST, SOUTH+EAST, SOUTH, SOUTH+WEST, WEST, NORTH+WEST]
  else if piece == ROOK_BLACK then [NORTH, EAST, SOUTH, WEST]
  else if piece == BISHOP_BLACK then [NORTH+EAST, SOUTH+EAST, SOUTH+WEST, NORTH+WEST]
  else if piece == KNIGHT_BLACK then
    [NORTH*2+EAST, NORTH+EAST*2, SOUTH+EAST*2, SOUTH*2+EAST, SOUTH*2+WEST, SOUTH+WEST*2,
     NORTH+WEST*2, NORTH*2+WEST]
  else if piece == PAWN_BLACK then [SOUTH+EAST, SOUTH, SOUTH*2, SOUTH+WEST]
  else []

def BORDER_NORTH : List Int := [0, 1, 2, 3, 4, 5, 6, 7]

def BORDER_EAST : List Int := [7, 15, 23, 31, 39, 47, 55, 63]

def BORDER_SOUTH : List Int := [56, 57, 58, 59, 60, 61, 62, 63]

def BORDER_WEST : List Int := [0, 8, 16, 24, 32, 40, 48, 56]

/-- The 64-character starting board. -/
def INITIAL_BOARD : List Char :=
  ['♜', '♞', '♝', '♛', '♚', '♝', '♞', '♜']
    ++ List.replicate 8 '♟'
    ++ List.replicate 32 ' '
    ++ List.replicate 8 '♙'
    ++ ['♖', '♘', '♗', '♕', '♔', '♗', '♘', '♖']

def INITIAL_POSITION : Position :=
  Position.mk INITIAL_BOARD true (CastlingRights.mk true true) (CastlingRights.mk true true)
    none 0 1

/-- Python `board[index].strip()`: a negative index within range wraps once;
an index out of the valid Python range would raise, and we return `' '` there
(no claim depends on that branch).  A space cell strips to the falsy empty
string; we keep `' '` and test emptiness with `is_occupied`. -/
def get_piece (index : Int) (board : List Char) : Char :=
  let n : Int := board.length
  let j : Int := if index < 0 then index + n else index
  if 0 ≤ j ∧ j < n then board.getD j.toNat ' ' else ' '

/-- Python truthiness of a stripped board cell. -/
def is_occupied (c : Char) : Bool := c != ' '

def active_team (whites_turn : Bool) : Bool := whites_turn

def opponent (team : Bool) : Bool := !team

/-- Membership in the team set picked by a team value (`WHITES` for the team
white, `BLACKS` otherwise, as in `active_team` and `opponent`). -/
def team_pieces : Bool → Char → Bool
  | true => WHITES
  | false => BLACKS

def directions : Bool → Char → List Int
  | true => DIRECTIONS_WHITE
  | false => DIRECTIONS_BLACK

def castling_rights (team : Bool) (position : Position) : CastlingRights :=
  if team then position.castling_white else position.castling_black

/-- Python comparison `destination != position.en_passant_target` where the
target may be `None` (an int never equals `None`). -/
def ne_ep (destination : Int) (ep : Option Int) : Bool :=
  match ep with
  | none => true
  | some t => destination != t

/-- Source `_in_bounds(origin, destination)`, translated clause by clause. -/
def _in_bounds (origin destination : Int) : Bool :=
  if destination < 0 then false
  else if BORDER_EAST.contains origin && BORDER_WEST.contains destination then false
  else if BORDER_WEST.contains destination
      && (BORDER_EAST.map (fun i => i + WEST)).contains origin
      || BORDER_EAST.contains origin
      && (BORDER_WEST.map (fun i => i + EAST)).contains destination then false
  else if destination > 63 then false
  else if BORDER_WEST.contains origin && BORDER_EAST.contains destination then false
  else if BORDER_EAST.contains destination
      && (BORDER_WEST.map (fun i => i + EAST)).contains origin
      || BORDER_WEST.contains origin
      && (BORDER_EAST.map (fun i => i + WEST)).contains destination then false
  else true

/-- Python `board[:i]` (slices clamp and never fail; a negative bound counts
from the end). -/
def py_slice_to (i : Int) (l : List Char) : List Char :=
  if i < 0 then l.take (l.length - min l.length (-i).toNat) else l.take i.toNat

/-- Python `board[i:]`. -/
def py_slice_from (i : Int) (l : List Char) : List Char :=
  if i < 0 then l.drop (l.length - min l.length (-i).toNat) else l.drop i.toNat

/-- Source `_place_piece`: the Python single-character check always passes for a
`Char` piece. -/
def _place_piece (origin : Int) (piece : Char) (board : List Char) : List Char :=
  py_slice_to origin board ++ [piece] ++ py_slice_from (origin + 1) board

def _clear (origin : Int) (board : List Char) : List Char :=
  py_slice_to origin board ++ [' '] ++ py_slice_from (origin + 1) board

/-- Source `_apply_move`: reads the raw origin cell (identical to `get_piece` in this
model, since spaces represent emptiness) before overwriting the destination. -/
def _apply_move (move : Move) (board : List Char) : List Char :=
  let b := _place_piece move.destination (get_piece move.origin board) board
  if move.origin ≠ move.destination then _clear move.origin b else b

/-- One ray of `_accessible_moves`: the body of
`for destination in count(origin + offset, offset)`, translated test by test
(including the two source slips kept verbatim: the castling guard breaks only
when blocked AND unallowed, and the pawn-diagonal tuple repeats `NORTH+EAST`
instead of listing `NORTH+WEST`). -/
def ray (position : Position) (team : Bool) (piece : Char) (origin : Int) (offset : Int)
    (capture_moves : Bool) : Nat → Int → List Move
  | 0, _ => []
  | fuel + 1, destination =>
    if !(_in_bounds (destination - offset) destination) then []
    else
      let destination_piece := get_piece destination position.board
      let king := KINGS piece
      let pawn := PAWNS piece
      if team_pieces team destination_piece then []
      else if king && capture_moves && (offset == EAST*2 || offset == WEST*2) then []
      else if king &&
          (offset == EAST*2 && is_occupied (get_piece (origin + EAST) position.board)
             && !(castling_rights team position).kingside
           || offset == WEST*2 && is_occupied (get_piece (origin + WEST) position.board)
             && is_occupied (get_piece (origin + WEST*3) position.board)
             && !(castling_rights team position).queenside) then []
      else if !king && pawn && capture_moves
          && (offset == NORTH || offset == NORTH*2 || offset == SOUTH || offset == SOUTH*2) then []
      else if !king && pawn && is_occupied destination_piece
          && (offset == NORTH || offset == NORTH*2 || offset == SOUTH || offset == SOUTH*2) then []
      else if !king && pawn &&
          (offset == NORTH*2 && (is_occupied (get_piece (origin + NORTH) position.board)
              || !((BORDER_SOUTH.map (fun i => i + NORTH)).contains origin))
           || offset == SOUTH*2 && (is_occupied (get_piece (origin + SOUTH) position.board)
              || !((BORDER_NORTH.map (fun i => i + SOUTH)).contains origin))) then []
      else if !king && pawn && !capture_moves
          && (offset == NORTH+EAST || offset == SOUTH+EAST || offset == SOUTH+WEST
              || offset == NORTH+EAST)
          && (!(is_occupied destination_piece) || ne_ep destination position.en_passant_target)
        then []
      else
        Move.mk origin destination ::
          (if KINGS piece || KNIGHTS piece || PAWNS piece then []
           else if is_occupied destination_piece then []
           else ray position team piece origin offset capture_moves fuel (destination + offset))

/-- Enough fuel for every ray: from an origin in 0..63 the Python loop breaks
within at most 65 iterations (each step changes the destination by a nonzero
offset, and the walk breaks once the destination leaves 0..63). -/
def ray_fuel : Nat := 70

/-- Source `_accessible_moves(origin, position, capture_moves)`.  Python raises for an
origin holding no recognised piece; we return the empty candidate list there
(no claim depends on that branch). -/
def accessible_moves (origin : Int) (position : Position) (capture_moves : Bool) : List Move :=
  let piece := get_piece origin position.board
  if WHITES piece then
    (directions true piece).flatMap
      (fun offset => ray position true piece origin offset capture_moves ray_fuel (origin + offset))
  else if BLACKS piece then
    (directions false piece).flatMap
      (fun offset => ray position false piece origin offset capture_moves ray_fuel (origin + offset))
  else []

/-- Source `besieged(team, position)`: the destinations of every capture-mode
pseudo-legal move of the opposing team's pieces, in yield order, first
occurrence only (the Python generator keeps a seen-set). -/
def besieged (team : Bool) (position : Position) : List Int :=
  let opposing_team := opponent team
  List.foldl
    (fun siege_list i =>
      if team_pieces opposing_team (position.board.getD i ' ') then
        List.foldl
          (fun acc move =>
            if acc.contains move.destination then acc else acc ++ [move.destination])
          siege_list
          (accessible_moves (i : Int) position true)
      else siege_list)
    []
    (List.range position.board.length)

/-- Source `is_check(team, position)`.  The Python code consumes one `besieged`
generator across the king scan: the first square holding a king of the team is
tested for membership, and (because a failed membership test exhausts the
generator) any later king of the same team always tests `False`.  With at most
one king per team — the spec's precondition — this is exactly membership of
the first such square. -/
def is_check (team : Bool) (position : Position) : Bool :=
  let under_siege := besieged team position
  match (List.range position.board.length).find?
      (fun i => team_pieces team (position.board.getD i ' ')
        && KINGS (position.board.getD i ' ')) with
  | some i => under_siege.contains (i : Int)
  | none => false

/-- Source `do_move` with `force=True` (the legality gate skipped): the body of the
Python function after the gate.  The source mutates locals along one
`if piece in KINGS / elif ROOKS / elif PAWNS` chain and builds the Position at
the end; here each field of the result is computed by the same chain (the
piece classes are disjoint, so the per-field chains are the same chain). -/
def do_move_forced (move : Move) (position : Position) (promotion_piece : Option Char) :
    Position :=
  let origin := move.origin
  let destination := move.destination
  let team := active_team position.whites_turn
  let piece := get_piece origin position.board
  let destination_piece := get_piece destination position.board
  let offset := destination - origin
  let board0 := _apply_move move position.board
  let board1 :=
    if KINGS piece then
      if offset == EAST*2 then _apply_move (Move.mk (origin + EAST*3) (origin + EAST)) board0
      else if offset == WEST*2 then _apply_move (Move.mk (origin + WEST*4) (origin + WEST)) board0
      else board0
    else if PAWNS piece then
      if offset == NORTH*2 || offset == SOUTH*2 then board0
      else if (offset == NORTH+EAST || offset == NORTH+WEST)
          && !(is_occupied destination_piece) then _clear (destination + SOUTH) board0
      else if (offset == SOUTH+EAST || offset == SOUTH+WEST)
          && !(is_occupied destination_piece) then _clear (destination + NORTH) board0
      else board0
    else board0
  let board2 :=
    if PAWNS piece && (BORDER_NORTH.contains destination || BORDER_SOUTH.contains destination)
      then
      _place_piece destination (promotion_piece.getD (if team then QUEEN_WHITE else QUEEN_BLACK))
        board1
    else board1
  let castling_white :=
    if KINGS piece then
      if team then CastlingRights.mk false false else position.castling_white
    else if ROOKS piece && team then
      if origin % 8 == 0 then CastlingRights.mk position.castling_white.kingside false
      else CastlingRights.mk false position.castling_white.queenside
    else position.castling_white
  let castling_black :=
    if KINGS piece then
      if team then position.castling_black else CastlingRights.mk false false
    else if ROOKS piece && !team then
      if origin % 8 == 0 then CastlingRights.mk position.castling_black.kingside false
      else CastlingRights.mk false position.castling_black.queenside
    else position.castling_black
  let en_passant_target : Option Int :=
    if PAWNS piece then
      if offset == NORTH*2 then some (destination + SOUTH)
      else if offset == SOUTH*2 then some (destination + NORTH)
      else none
    else none
  let half_move_clock : Int :=
    if is_occupied destination_piece then 0
    else if PAWNS piece then 0
    else position.half_move_clock + 1
  let move_count :=
    if !position.whites_turn then position.move_count + 1 else position.move_count
  Position.mk board2 (!position.whites_turn) castling_white castling_black en_passant_target
    half_move_clock move_count

/-- Source `legal_moves(origin, position)`: the pseudo-legal candidates filtered by
the king-safety rules (for kings) or by simulating the move in forced mode and
rejecting self-check (for every other piece). -/
def legal_moves (origin : Int) (position : Position) : List Move :=
  let piece := get_piece origin position.board
  let team := active_team position.whites_turn
  let king := KINGS piece
  let under_siege := besieged team position
  let current_check := under_siege.contains origin
  List.filter
    (fun move =>
      if king then
        let offset := move.destination - move.origin
        let half_offset := Int.fdiv offset 2
        if under_siege.contains move.destination then false
        else if (offset == EAST*2 || offset == WEST*2)
            && (current_check || under_siege.contains half_offset) then false
        else true
      else !(is_check team (do_move_forced move position none)))
    (accessible_moves origin position false)

/-- Source `is_move_legal(move, position)`. -/
def is_move_legal (move : Move) (position : Position) : Bool :=
  let team := active_team position.whites_turn
  let piece := get_piece move.origin position.board
  let destination_piece := get_piece move.destination position.board
  if !(team_pieces team piece) || team_pieces team destination_piece then false
  else decide (move ∈ legal_moves move.origin position)

/-- Source `do_move`: raising `ValueError` is modeled as `Except.error ()`. -/
def do_move (move : Move) (position : Position) (force : Bool)
    (promotion_piece : Option Char) : Except Unit Position :=
  if force || is_move_legal move position then
    Except.ok (do_move_forced move position promotion_piece)
  else Except.error ()

/-- Python `str.upper` on a single character. -/
def str_upper_char (c : Char) : Char :=
  if 'a' ≤ c && c ≤ 'z' then Char.ofNat (c.toNat - 32) else c

/-- Python `int(text[1])` for a digit character. -/
def char_digit_val (c : Char) : Int := (c.toNat : Int) - 48

/-- Source `to_index(text)` on the two characters of the text. -/
def to_index (letter rank : Char) : Int :=
  ((str_upper_char letter).toNat : Int) - 65 + (-(char_digit_val rank - 8)) * 8

/-- Source `to_notation(index)` as the pair of produced characters.  The source binds
`remainder, quotient = divmod(index, 8)` (names swapped relative to Python's
`divmod` order), so `remainder` is the floor quotient and `quotient` the
remainder, exactly as below. -/
def to_notation (index : Int) : Char × Char :=
  let remainder := Int.fdiv index 8
  let quotient := index % 8
  (Char.ofNat (quotient + 65).toNat, Char.ofNat ((-(remainder - 8)) + 48).toNat)

/-! Concrete test positions used by the counterexamples and failing inputs. -/

/-- Black rook on square 0 (A8), white king on square 16 (A6), white to move. -/
def board_c2 : List Char := ['♜'] ++ List.replicate 15 ' ' ++ ['♔'] ++ List.replicate 47 ' '

def pos_c2 : Position :=
  Position.mk board_c2 true (CastlingRights.mk true true) (CastlingRights.mk true true) none 0 1

/-- Black king on 4, white king on 60, white rook on 63, squares 61 and 62
empty, and white's kingside castling right already cleared. -/
def board_c4 : List Char :=
  List.replicate 4 ' ' ++ ['♚'] ++ List.replicate 55 ' ' ++ ['♔'] ++ [' ', ' '] ++ ['♖']

def pos_c4 : Position :=
  Position.mk board_c4 true (CastlingRights.mk false true) (CastlingRights.mk false false) none 0 1

/-- Black king on 4, white rook on 35 (file D), white king on 60, both white
castling rights still held, white to move. -/
def board_c5 : List Char :=
  List.replicate 4 ' ' ++ ['♚'] ++ List.replicate 30 ' ' ++ ['♖'] ++ List.replicate 24 ' '
    ++ ['♔'] ++ List.replicate 3 ' '

def pos_c5 : Position :=
  Position.mk board_c5 true (CastlingRights.mk true true) (CastlingRights.mk true true) none 0 1

/-- A 64-cell board whose only piece is a white pawn on square 63. -/
def board_c10 : List Char := List.replicate 63 ' ' ++ ['♙']

def pos_c10 : Position :=
  Position.mk board_c10 true (CastlingRights.mk true true) (CastlingRights.mk true true) none 0 1

/-! Helper lemmas shared by the claim theorems. -/

/-- Membership in a guard of the shape the ray walk uses: a break guard
yields nothing. -/
lemma mem_ite_nil {c : Prop} [Decidable c] {l : List Move} {m : Move}
    (hm : m ∈ (if c then [] else l)) : m ∈ l := by
  split at hm
  · cases hm
  · exact hm

/-- Membership through a break guard also refutes the guard condition. -/
lemma mem_ite_nil_cond {c : Prop} [Decidable c] {l : List Move} {m : Move}
    (hm : m ∈ (if c then [] else l)) : ¬c ∧ m ∈ l := by
  split at hm
  · cases hm
  · exact ⟨by assumption, hm⟩

/-- Every move yielded by a single ray walk has a destination that does not
hold a piece of the walking piece's team: the walk breaks on a friendly
destination before yielding it. -/
lemma ray_dest_not_friendly (position : Position) (team : Bool) (piece : Char)
    (origin offset : Int) (capture_moves : Bool) :
    ∀ (fuel : Nat) (d : Int) (m : Move),
      m ∈ ray position team piece origin offset capture_moves fuel d →
      team_pieces team (get_piece m.destination position.board) = false := by
  intro fuel
  induction fuel with
  | zero => intro d m hm; simp [ray] at hm
  | succ n ih =>
    intro d m hm
    simp only [ray] at hm
    have s1 := mem_ite_nil hm
    obtain ⟨hnf, s2⟩ := mem_ite_nil_cond s1
    have s3 := mem_ite_nil s2
    have s4 := mem_ite_nil s3
    have s5 := mem_ite_nil s4
    have s6 := mem_ite_nil s5
    have s7 := mem_ite_nil s6
    have s8 := mem_ite_nil s7
    rcases List.mem_cons.mp s8 with rfl | htail
    · simpa using hnf
    · have t1 := mem_ite_nil htail
      have t2 := mem_ite_nil t1
      exact ih (d + offset) m t2

/-- A piece character is in at most one team set. -/
lemma blacks_not_whites (c : Char) (h : BLACKS c = true) : WHITES c = false := by
  simp only [BLACKS, Bool.or_eq_true, beq_iff_eq] at h
  rcases h with ((((h | h) | h) | h) | h) | h <;> subst h <;> decide

/-- Every pseudo-legal move of a piece of the side to move lands on a square
that is not friendly to the side to move. -/
lemma accessible_dest_not_friendly (o : Int) (p : Position) (cm : Bool) (m : Move)
    (h : team_pieces (active_team p.whites_turn) (get_piece o p.board) = true)
    (hm : m ∈ accessible_moves o p cm) :
    team_pieces (active_team p.whites_turn) (get_piece m.destination p.board) = false := by
  simp only [accessible_moves] at hm
  simp only [active_team] at h ⊢
  cases hw : p.whites_turn with
  | true =>
    rw [hw] at h
    simp only [team_pieces] at h ⊢
    rw [if_pos h] at hm
    rcases List.mem_flatMap.mp hm with ⟨offset, _, hr⟩
    have hray := ray_dest_not_friendly p true (get_piece o p.board) o offset cm ray_fuel
      (o + offset) m hr
    simpa [team_pieces] using hray
  | false =>
    rw [hw] at h
    simp only [team_pieces] at h ⊢
    have hwf := blacks_not_whites _ h
    rw [if_neg (by simp [hwf]), if_pos h] at hm
    rcases List.mem_flatMap.mp hm with ⟨offset, _, hr⟩
    have hray := ray_dest_not_friendly p false (get_piece o p.board) o offset cm ray_fuel
      (o + offset) m hr
    simpa [team_pieces] using hray

/-- The legal moves are a sublist of the pseudo-legal moves. -/
lemma mem_accessible_of_mem_legal (o : Int) (p : Position) (m : Move)
    (hm : m ∈ legal_moves o p) : m ∈ accessible_moves o p false := by
  simp only [legal_moves] at hm
  exact (List.mem_filter.mp hm).1

/-- C1 counterexample: on the initial position (white to move), the black pawn
on square 8 is not white's piece, so `is_move_legal` is false for its forward
step, yet `legal_moves(8, ...)` does yield that move: the claimed equivalence
fails when the origin holds a piece that does not belong to the side to
move. -/
theorem c1_counterexample :
    Move.mk 8 16 ∈ legal_moves 8 INITIAL_POSITION
      ∧ is_move_legal (Move.mk 8 16) INITIAL_POSITION = false := by
  constructor
  · decide
  · decide

/-- C1 (amended): for every position and every move whose origin holds a piece
of the side to move, the move is in `legal_moves(origin, position)` if and only
if `is_move_legal(move, position)` is true.  (When the origin is empty or
holds an enemy piece, `is_move_legal` returns false while `legal_moves` is not
so constrained.) -/
theorem c1_theorem (p : Position) (m : Move)
    (h : team_pieces (active_team p.whites_turn) (get_piece m.origin p.board) = true) :
    m ∈ legal_moves m.origin p ↔ is_move_legal m p = true := by
  constructor
  · intro hm
    have hd := accessible_dest_not_friendly m.origin p false m h
      (mem_accessible_of_mem_legal m.origin p m hm)
    simp [is_move_legal, h, hd, hm]
  · intro hl
    by_cases hd : team_pieces (active_team p.whites_turn) (get_piece m.destination p.board) = true
    · exfalso
      simp [is_move_legal, h, hd] at hl
    · have hd' : team_pieces (active_team p.whites_turn) (get_piece m.destination p.board)
          = false := by
        simpa using hd
      simpa [is_move_legal, h, hd'] using hl

/-- C2: the failing input.  With a black rook on 0 and the white king on 16,
`legal_moves(16, ...)` yields the retreat Move(16, 24) along the rook's ray
(the attack set is computed on the pre-move board, where the king itself
blocks square 24), yet after committing the move in forced mode white is
still in check. -/
theorem c2_theorem :
    Move.mk 16 24 ∈ legal_moves 16 pos_c2
      ∧ KINGS (get_piece 16 pos_c2.board) = true
      ∧ is_check (active_team pos_c2.whites_turn)
          (do_move_forced (Move.mk 16 24) pos_c2 none) = true := by
  refine ⟨by decide, by decide, by decide⟩

/-- C3: the failing input.  On the initial position (no en-passant target),
the white pawn on 49 is given the north-west diagonal step Move(49, 40) onto
an empty square: the diagonal guard's offset tuple repeats `NORTH+EAST` and
omits `NORTH+WEST`, so the white north-west diagonal is never filtered. -/
theorem c3_theorem :
    Move.mk 49 40 ∈ accessible_moves 49 INITIAL_POSITION false
      ∧ get_piece 49 INITIAL_POSITION.board = PAWN_WHITE
      ∧ (49 : Int) + (NORTH + WEST) = 40
      ∧ is_occupied (get_piece 40 INITIAL_POSITION.board) = false
      ∧ INITIAL_POSITION.en_passant_target = none := by
  refine ⟨by decide, by decide, by decide, by decide, rfl⟩

/-- C4: the failing input.  White's kingside castling right is already
cleared, the path squares 61 and 62 are empty, and the generator still yields
the castling candidate Move(60, 62): the guard only breaks when the path is
blocked AND the right is missing, so an unblocked path bypasses the
right check entirely. -/
theorem c4_theorem :
    Move.mk 60 62 ∈ accessible_moves 60 pos_c4 false
      ∧ KINGS (get_piece 60 pos_c4.board) = true
      ∧ (62 : Int) - 60 = EAST * 2
      ∧ (castling_rights (active_team pos_c4.whites_turn) pos_c4).kingside = false
      ∧ is_occupied (get_piece 61 pos_c4.board) = false
      ∧ is_occupied (get_piece 62 pos_c4.board) = false := by
  refine ⟨by decide, by decide, by decide, by decide, by decide, by decide⟩

/-- The castling-right update the spec describes for a rook move: clear the
kingside right when the rook moves from the kingside home file (file H, index
7 mod 8), the queenside right otherwise.  Written from the spec's words, to be
compared with the source's update. -/
def rook_rights_spec (origin : Int) (cr : CastlingRights) : CastlingRights :=
  if origin % 8 == 7 then CastlingRights.mk false cr.queenside
  else CastlingRights.mk cr.kingside false

/-- C5 counterexample: a white rook moving from square 35 (file D, not the
kingside home file) has its team's KINGSIDE right cleared by the code, while
the claim requires the queenside right to be cleared for any file other than
the kingside home file. -/
theorem c5_counterexample :
    (do_move_forced (Move.mk 35 36) pos_c5 none).castling_white
        ≠ rook_rights_spec 35 pos_c5.castling_white
      ∧ get_piece 35 pos_c5.board = ROOK_WHITE
      ∧ (do_move_forced (Move.mk 35 36) pos_c5 none).castling_white
          = CastlingRights.mk false true
      ∧ rook_rights_spec 35 pos_c5.castling_white = CastlingRights.mk true false := by
  refine ⟨by decide, by decide, by decide, by decide⟩

/-- Projection of the transition's white castling rights (definitional). -/
lemma do_move_forced_castling_white (m : Move) (p : Position) (pr : Option Char) :
    (do_move_forced m p pr).castling_white =
      (if KINGS (get_piece m.origin p.board) then
        (if active_team p.whites_turn then CastlingRights.mk false false else p.castling_white)
      else if ROOKS (get_piece m.origin p.board) && active_team p.whites_turn then
        (if m.origin % 8 == 0 then CastlingRights.mk p.castling_white.kingside false
         else CastlingRights.mk false p.castling_white.queenside)
      else p.castling_white) := rfl

/-- Projection of the transition's black castling rights (definitional). -/
lemma do_move_forced_castling_black (m : Move) (p : Position) (pr : Option Char) :
    (do_move_forced m p pr).castling_black =
      (if KINGS (get_piece m.origin p.board) then
        (if active_team p.whites_turn then p.castling_black else CastlingRights.mk false false)
      else if ROOKS (get_piece m.origin p.board) && !(active_team p.whites_turn) then
        (if m.origin % 8 == 0 then CastlingRights.mk p.castling_black.kingside false
         else CastlingRights.mk false p.castling_black.queenside)
      else p.castling_black) := rfl

/-- A rook character of the white team is the white rook. -/
lemma rook_white_of (c : Char) (hw : WHITES c = true) (hr : ROOKS c = true) :
    c = ROOK_WHITE := by
  simp only [ROOKS, Bool.or_eq_true, beq_iff_eq] at hr
  rcases hr with h | h
  · exact h
  · subst h
    exact absurd hw (by decide)

/-- A rook character of the black team is the black rook. -/
lemma rook_black_of (c : Char) (hb : BLACKS c = true) (hr : ROOKS c = true) :
    c = ROOK_BLACK := by
  simp only [ROOKS, Bool.or_eq_true, beq_iff_eq] at hr
  rcases hr with h | h
  · subst h
    exact absurd hb (by decide)
  · exact h

/-- C5 (amended): when the origin holds a rook of the side to move, the
transition clears exactly the queenside right of that team if the origin is on
file A (index 0 mod 8, the queenside-rook home file) and exactly the kingside
right otherwise (any other file, not only the kingside home file); the other
right of the team keeps its old value (so an already-cleared right stays
cleared), and the opponent's rights are unchanged. -/
theorem c5_theorem (p : Position) (m : Move) (pr : Option Char)
    (h : team_pieces (active_team p.whites_turn) (get_piece m.origin p.board) = true)
    (hr : ROOKS (get_piece m.origin p.board) = true) :
    castling_rights (active_team p.whites_turn) (do_move_forced m p pr)
        = (if m.origin % 8 == 0 then
            CastlingRights.mk (castling_rights (active_team p.whites_turn) p).kingside false
          else CastlingRights.mk false (castling_rights (active_team p.whites_turn) p).queenside)
      ∧ castling_rights (opponent (active_team p.whites_turn)) (do_move_forced m p pr)
          = castling_rights (opponent (active_team p.whites_turn)) p := by
  simp only [active_team] at h ⊢
  cases hw : p.whites_turn with
  | true =>
    rw [hw] at h
    simp only [team_pieces] at h
    have hc := rook_white_of _ h hr
    have hK : KINGS ROOK_WHITE = false := by decide
    have hR : ROOKS ROOK_WHITE = true := by decide
    constructor
    · have e1 : castling_rights true (do_move_forced m p pr)
          = (do_move_forced m p pr).castling_white := rfl
      have e2 : castling_rights true p = p.castling_white := rfl
      rw [e1, e2, do_move_forced_castling_white, hc]
      simp [hK, hR, active_team, hw]
    · have e1 : castling_rights (opponent true) (do_move_forced m p pr)
          = (do_move_forced m p pr).castling_black := rfl
      have e2 : castling_rights (opponent true) p = p.castling_black := rfl
      rw [e1, e2, do_move_forced_castling_black, hc]
      simp [hK, hR, active_team, hw]
  | false =>
    rw [hw] at h
    simp only [team_pieces] at h
    have hc := rook_black_of _ h hr
    have hK : KINGS ROOK_BLACK = false := by decide
    have hR : ROOKS ROOK_BLACK = true := by decide
    constructor
    · have e1 : castling_rights false (do_move_forced m p pr)
          = (do_move_forced m p pr).castling_black := rfl
      have e2 : castling_rights false p = p.castling_black := rfl
      rw [e1, e2, do_move_forced_castling_black, hc]
      simp [hK, hR, active_team, hw]
    · have e1 : castling_rights (opponent false) (do_move_forced m p pr)
          = (do_move_forced m p pr).castling_white := rfl
      have e2 : castling_rights (opponent false) p = p.castling_white := rfl
      rw [e1, e2, do_move_forced_castling_white, hc]
      simp [hK, hR, active_team, hw]

/-- Witness for C5 (amended): the white rook on 35 (file D) moving to 36
clears white's kingside right and keeps the queenside right. -/
theorem c5_witness :
    castling_rights (active_team pos_c5.whites_turn) (do_move_forced (Move.mk 35 36) pos_c5 none)
      = CastlingRights.mk false true := by
  have h := c5_theorem pos_c5 (Move.mk 35 36) none (by decide) (by decide)
  rw [h.1]
  decide

/-- C9: the transition errors in non-forced mode exactly when the move is not
legal, and in forced mode it never errors and returns the committed position.
(Positions are immutable values in this model, as in the source, so a failed
call leaves the input untouched by construction.) -/
theorem c9_theorem (m : Move) (p : Position) (pr : Option Char) :
    ((do_move m p false pr = Except.error ()) ↔ is_move_legal m p = false)
      ∧ do_move m p true pr = Except.ok (do_move_forced m p pr) := by
  constructor
  · cases h : is_move_legal m p <;> simp [do_move, h]
  · rfl

/-- Witness for C1 (amended) at the initial position and the opening pawn
push. -/
theorem c1_witness :
    team_pieces (active_team INITIAL_POSITION.whites_turn)
        (get_piece (Move.mk 48 32).origin INITIAL_POSITION.board) = true
      ∧ (Move.mk 48 32 ∈ legal_moves (Move.mk 48 32).origin INITIAL_POSITION
          ↔ is_move_legal (Move.mk 48 32) INITIAL_POSITION = true) :=
  ⟨by decide, c1_theorem INITIAL_POSITION (Move.mk 48 32) (by decide)⟩

/-- One forced transition step between positions. -/
def forced_step (p q : Position) : Prop :=
  ∃ (m : Move) (pr : Option Char), do_move m p true pr = Except.ok q

/-- Reachability by any number of forced transitions. -/
def reachable_forced : Position → Position → Prop :=
  Relation.ReflTransGen forced_step

/-- Forced `do_move` always succeeds with the committed position. -/
lemma do_move_forced_ok (m : Move) (p : Position) (pr : Option Char) :
    do_move m p true pr = Except.ok (do_move_forced m p pr) := rfl

/-- A single transition never resurrects a cleared castling right. -/
lemma step_rights_mono (p q : Position) (h : forced_step p q) :
    (p.castling_white.kingside = false → q.castling_white.kingside = false)
      ∧ (p.castling_white.queenside = false → q.castling_white.queenside = false)
      ∧ (p.castling_black.kingside = false → q.castling_black.kingside = false)
      ∧ (p.castling_black.queenside = false → q.castling_black.queenside = false) := by
  obtain ⟨m, pr, hq⟩ := h
  rw [do_move_forced_ok] at hq
  have hq' : q = do_move_forced m p pr := (Except.ok.injEq _ _).mp hq.symm
  subst hq'
  rw [do_move_forced_castling_white, do_move_forced_castling_black]
  refine ⟨?_, ?_, ?_, ?_⟩ <;> (split_ifs <;> intro hh <;> simp_all)

/-- C6: castling-right monotonicity.  If a castling right is false in a
position, it is false in every position reachable from it by forced
transitions; in particular it is false after a single `do_move` with
`force=True`. -/
theorem c6_theorem (p q : Position) (h : reachable_forced p q) :
    (p.castling_white.kingside = false → q.castling_white.kingside = false)
      ∧ (p.castling_white.queenside = false → q.castling_white.queenside = false)
      ∧ (p.castling_black.kingside = false → q.castling_black.kingside = false)
      ∧ (p.castling_black.queenside = false → q.castling_black.queenside = false) := by
  induction h with
  | refl => exact ⟨id, id, id, id⟩
  | tail _ hstep ih =>
    have hs := step_rights_mono _ _ hstep
    exact ⟨fun a => hs.1 (ih.1 a), fun a => hs.2.1 (ih.2.1 a),
      fun a => hs.2.2.1 (ih.2.2.1 a), fun a => hs.2.2.2 (ih.2.2.2 a)⟩

/-- Witness for C6: white's cleared kingside right stays cleared after a
forced king step from pos_c4. -/
theorem c6_witness :
    (do_move_forced (Move.mk 60 61) pos_c4 none).castling_white.kingside = false :=
  (c6_theorem pos_c4 (do_move_forced (Move.mk 60 61) pos_c4 none)
    (Relation.ReflTransGen.single ⟨Move.mk 60 61, none, rfl⟩)).1 rfl

/-- The expected result of the opening pawn push Move(48, 32). -/
def board_c7 : List Char :=
  ['♜', '♞', '♝', '♛', '♚', '♝', '♞', '♜']
    ++ List.replicate 8 '♟'
    ++ List.replicate 16 ' '
    ++ ['♙']
    ++ List.replicate 16 ' '
    ++ List.replicate 7 '♙'
    ++ ['♖', '♘', '♗', '♕', '♔', '♗', '♘', '♖']

def pos_c7 : Position :=
  Position.mk board_c7 false (CastlingRights.mk true true) (CastlingRights.mk true true)
    (some 40) 0 1

/-- C7: committing Move(48, 32) from the initial position (non-forced, since
the move is legal) flips the side to move, zeroes the half-move clock, sets
the en-passant target to 40, relocates the white pawn from 48 to 32, and
changes nothing else: castling rights, the full-move counter, and every other
board cell are unchanged. -/
theorem c7_theorem :
    do_move (Move.mk 48 32) INITIAL_POSITION false none = Except.ok pos_c7
      ∧ pos_c7.board = _apply_move (Move.mk 48 32) INITIAL_POSITION.board
      ∧ pos_c7.whites_turn = false
      ∧ pos_c7.half_move_clock = 0
      ∧ pos_c7.en_passant_target = some 40
      ∧ get_piece 32 pos_c7.board = PAWN_WHITE
      ∧ get_piece 48 pos_c7.board = ' '
      ∧ pos_c7.castling_white = INITIAL_POSITION.castling_white
      ∧ pos_c7.castling_black = INITIAL_POSITION.castling_black
      ∧ pos_c7.move_count = INITIAL_POSITION.move_count
      ∧ (∀ i : Nat, i < 64 → i ≠ 48 → i ≠ 32 →
          pos_c7.board.getD i ' ' = INITIAL_POSITION.board.getD i ' ') := by
  refine ⟨rfl, by decide, rfl, rfl, rfl, by decide, by decide, rfl, rfl, rfl, by decide⟩

/-- Witness for C7's frame conjunct at cell 0. -/
theorem c7_witness :
    pos_c7.board.getD 0 ' ' = INITIAL_POSITION.board.getD 0 ' ' :=
  c7_theorem.2.2.2.2.2.2.2.2.2.2 0 (by decide) (by decide) (by decide)

def valid_letters : List Char :=
  ['A', 'B', 'C', 'D', 'E', 'F', 'G', 'H', 'a', 'b', 'c', 'd', 'e', 'f', 'g', 'h']

def valid_digits : List Char := ['1', '2', '3', '4', '5', '6', '7', '8']

/-- C8: square-index and algebraic-text conversion are mutually inverse: every
index 0..63 survives the round trip, and every valid two-character text (file
letter A-H in either case, rank digit 1-8) comes back as its uppercased
self. -/
theorem c8_theorem :
    (∀ s : Fin 64,
        to_index ( to_notation ((s : Nat) : Int)).1 ( to_notation ((s : Nat) : Int)).2
          = ((s : Nat) : Int))
      ∧ (∀ l d : Char, l ∈ valid_letters → d ∈ valid_digits →
          to_notation ( to_index l d) = (str_upper_char l, d)) := by
  constructor
  · decide
  · intro l d hl hd
    fin_cases hl <;> fin_cases hd <;> rfl

/-- Witness for C8's second conjunct at the lowercase text "a1". -/
theorem c8_witness :
    to_notation ( to_index 'a' '1') = (str_upper_char 'a', '1') :=
  c8_theorem.2 'a' '1' (by decide) (by decide)

/-! Board-length lemmas for the single-cell helpers, under the in-range
conditions in which Python replaces exactly one cell. -/

lemma py_slice_to_length (i : Int) (l : List Char) (h0 : 0 ≤ i) (h1 : i ≤ (l.length : Int)) :
    (py_slice_to i l).length = i.toNat := by
  simp only [py_slice_to]
  rw [if_neg (by omega), List.length_take]
  omega

lemma py_slice_from_length (i : Int) (l : List Char) (h0 : 0 ≤ i) :
    (py_slice_from i l).length = l.length - i.toNat := by
  simp only [py_slice_from]
  rw [if_neg (by omega), List.length_drop]

lemma _place_piece_length (i : Int) (c : Char) (l : List Char) (h0 : 0 ≤ i)
    (h1 : i < (l.length : Int)) : (_place_piece i c l).length = l.length := by
  simp only [_place_piece, List.length_append, List.length_singleton]
  rw [py_slice_to_length i l h0 (le_of_lt h1), py_slice_from_length (i + 1) l (by omega)]
  omega

lemma _clear_length (i : Int) (l : List Char) (h0 : 0 ≤ i)
    (h1 : i < (l.length : Int)) : (_clear i l).length = l.length := by
  simp only [_clear, List.length_append, List.length_singleton]
  rw [py_slice_to_length i l h0 (le_of_lt h1), py_slice_from_length (i + 1) l (by omega)]
  omega

lemma _apply_move_length (mv : Move) (l : List Char)
    (h1 : 0 ≤ mv.origin) (h2 : mv.origin < (l.length : Int))
    (h3 : 0 ≤ mv.destination) (h4 : mv.destination < (l.length : Int)) :
    (_apply_move mv l).length = l.length := by
  simp only [_apply_move]
  have hp : (_place_piece mv.destination (get_piece mv.origin l) l).length = l.length :=
    _place_piece_length _ _ _ h3 h4
  split
  · rw [_clear_length _ _ h1 (by rw [hp]; exact h2), hp]
  · exact hp

/-- C10 counterexample: a forced "en-passant-shaped" pawn move from 63 to 56
on a 64-cell board clears the cell at index 64; the Python slices clamp, so
the board string grows to 65 cells instead of staying at 64. -/
theorem c10_counterexample :
    pos_c10.board.length = 64
      ∧ do_move (Move.mk 63 56) pos_c10 true none
          = Except.ok (do_move_forced (Move.mk 63 56) pos_c10 none)
      ∧ (do_move_forced (Move.mk 63 56) pos_c10 none).board.length = 65 := by
  refine ⟨by decide, rfl, by decide⟩

/-- C10 (amended): for a 64-cell board and a move whose squares lie in 0..63,
the committed position's board again has exactly 64 cells, provided the move
does not drive one of the transition's secondary cell updates off the board:
for a pawn diagonal onto an empty destination the cleared square
(destination+8 northward, destination-8 southward) must lie in 0..63, and for
a king two-square offset the castling rook's origin (origin+3 kingside,
origin-4 queenside) must lie in 0..63. -/
theorem c10_theorem (m : Move) (p : Position) (pr : Option Char)
    (h64 : p.board.length = 64)
    (ho0 : 0 ≤ m.origin) (ho1 : m.origin < 64)
    (hd0 : 0 ≤ m.destination) (hd1 : m.destination < 64)
    (hpn : PAWNS (get_piece m.origin p.board) = true →
      m.destination - m.origin = NORTH + EAST ∨ m.destination - m.origin = NORTH + WEST →
      is_occupied (get_piece m.destination p.board) = false →
      m.destination + SOUTH < 64)
    (hps : PAWNS (get_piece m.origin p.board) = true →
      m.destination - m.origin = SOUTH + EAST ∨ m.destination - m.origin = SOUTH + WEST →
      is_occupied (get_piece m.destination p.board) = false →
      0 ≤ m.destination + NORTH)
    (hkk : KINGS (get_piece m.origin p.board) = true →
      m.destination - m.origin = EAST * 2 → m.origin + EAST * 3 < 64)
    (hkq : KINGS (get_piece m.origin p.board) = true →
      m.destination - m.origin = WEST * 2 → 0 ≤ m.origin + WEST * 4) :
    (do_move_forced m p pr).board.length = 64 := by
  have heN : NORTH = -8 := rfl
  have heE : EAST = 1 := rfl
  have heS : SOUTH = 8 := rfl
  have heW : WEST = -1 := rfl
  have hb0 : (_apply_move m p.board).length = 64 := by
    rw [_apply_move_length m p.board ho0 (by omega) hd0 (by omega)]
    exact h64
  have key : ∀ (c : Prop) (inst : Decidable c) (ch : Char) (B : List Char), B.length = 64 →
      (if c then _place_piece m.destination ch B else B).length = 64 := by
    intro c inst ch B hB
    split
    · rw [_place_piece_length _ _ _ hd0 (by omega), hB]
    · exact hB
  simp only [do_move_forced]
  refine key _ _ _ _ ?_
  split
  case isTrue hK =>
    split
    case isTrue hE2 =>
      have hE2' : m.destination - m.origin = EAST * 2 := by simpa using hE2
      have hk3 := hkk hK hE2'
      have happ : (_apply_move (Move.mk (m.origin + EAST * 3) (m.origin + EAST))
          (_apply_move m p.board)).length = (_apply_move m p.board).length := by
        apply _apply_move_length
        · show 0 ≤ m.origin + EAST * 3
          omega
        · show m.origin + EAST * 3 < ((_apply_move m p.board).length : Int)
          omega
        · show 0 ≤ m.origin + EAST
          omega
        · show m.origin + EAST < ((_apply_move m p.board).length : Int)
          omega
      rw [happ, hb0]
    case isFalse hE2 =>
      split
      case isTrue hW2 =>
        have hW2' : m.destination - m.origin = WEST * 2 := by simpa using hW2
        have hk4 := hkq hK hW2'
        have happ : (_apply_move (Move.mk (m.origin + WEST * 4) (m.origin + WEST))
            (_apply_move m p.board)).length = (_apply_move m p.board).length := by
          apply _apply_move_length
          · show 0 ≤ m.origin + WEST * 4
            omega
          · show m.origin + WEST * 4 < ((_apply_move m p.board).length : Int)
            omega
          · show 0 ≤ m.origin + WEST
            omega
          · show m.origin + WEST < ((_apply_move m p.board).length : Int)
            omega
        rw [happ, hb0]
      case isFalse hW2 => exact hb0
  case isFalse hK =>
    split
    case isTrue hP =>
      split
      case isTrue hvert => exact hb0
      case isFalse hvert =>
        split
        case isTrue hdN =>
          rw [Bool.and_eq_true, Bool.or_eq_true] at hdN
          have hor : m.destination - m.origin = NORTH + EAST
              ∨ m.destination - m.origin = NORTH + WEST := by
            rcases hdN.1 with h | h
            · exact Or.inl (by simpa using h)
            · exact Or.inr (by simpa using h)
          have hocc : is_occupied (get_piece m.destination p.board) = false := by
            simpa using hdN.2
          have hcl := hpn hP hor hocc
          rw [_clear_length (m.destination + SOUTH) _ (by omega) (by omega), hb0]
        case isFalse hdN =>
          split
          case isTrue hdS =>
            rw [Bool.and_eq_true, Bool.or_eq_true] at hdS
            have hor : m.destination - m.origin = SOUTH + EAST
                ∨ m.destination - m.origin = SOUTH + WEST := by
              rcases hdS.1 with h | h
              · exact Or.inl (by simpa using h)
              · exact Or.inr (by simpa using h)
            have hocc : is_occupied (get_piece m.destination p.board) = false := by
              simpa using hdS.2
            have hcl := hps hP hor hocc
            rw [_clear_length (m.destination + NORTH) _ (by omega) (by omega), hb0]
          case isFalse hdS => exact hb0
    case isFalse hP => exact hb0

/-- Witness for C10 (amended) at the opening pawn push from the initial
position. -/
theorem c10_witness :
    (do_move_forced (Move.mk 48 32) INITIAL_POSITION none).board.length = 64 :=
  c10_theorem (Move.mk 48 32) INITIAL_POSITION none (by decide) (by decide) (by decide)
    (by decide) (by decide) (by decide) (by decide) (by decide) (by decide)

end Schaakmat
